import Mathlib

/-!
Verification development for the `ai1` repository (agent.py, config.py,
prompts.py, summarizer.py): a shallow embedding of its provider selection,
text-generation facade, conversational history plumbing, prompt builders,
URL fetcher and interactive loops, together with theorems settling the
spec claims about them.
-/

namespace Ai1

/-! ### Strings as Python treats them

Python `str.lower()` maps each character to lower case; `str.strip()`
removes surrounding whitespace.  Both are modelled on the character list
of the string (identical on the ASCII inputs these programs compare). -/

/-- The whitespace characters Python `str.strip()` removes (ASCII). -/
def isPySpace (c : Char) : Bool :=
  c == ' ' || c == '\t' || c == '\n' || c == '\r' || c == '\x0b' || c == '\x0c'

/-- Python `s.strip()` on a string: drop whitespace from both ends. -/
def pyStrip (s : String) : String :=
  String.mk (((s.data.dropWhile isPySpace).reverse.dropWhile isPySpace).reverse)

/-- Python `s.lower()` on a string. -/
def pyLower (s : String) : String := String.mk (s.data.map Char.toLower)

/-- The environment snapshot read by `os.getenv`: a partial map from
variable names to values.  `os.getenv(k)` is `env k`; `os.getenv(k, d)`
is `getenv env k d`. -/
def Env := String → Option String

/-- Python `os.getenv(k, d)`: the value when the variable is set (even if
set to the empty string), otherwise the default `d`. -/
def getenv (env : Env) (k d : String) : String := (env k).getD d

/-! ### Messages and conversation history (agent.py)

`_initialize_prompt` builds `ChatPromptTemplate.from_messages` with a fixed
system message, a `MessagesPlaceholder` for the history and the new human
turn, so every backend call receives `[system] ++ history ++ [user input]`. -/

/-- A chat message role.  LangChain spells the user role "human" and the
assistant role "ai"; the ollama wire dict spells them "user"/"assistant".
One enum covers both spellings. -/
inductive Role
  | system
  | user
  | assistant
  deriving DecidableEq, Repr

/-- One `{role, content}` chat message. -/
structure Msg where
  role : Role
  content : String
  deriving DecidableEq, Repr

/-- The fixed system instruction from `_initialize_prompt`. -/
def systemMsg : Msg :=
  ⟨Role.system, "You are a helpful AI assistant. Keep your answers concise."⟩

/-- The message list produced by the chat prompt template for a given
history and new user input: system instruction, then the history, then the
new human turn. -/
def promptMessages (history : List Msg) (input : String) : List Msg :=
  systemMsg :: (history ++ [⟨Role.user, input⟩])

/-- The state of all session histories: what a persistent per-session store
holds for each session id. -/
def Store := String → List Msg

/-- How `_get_session_history` behaves across calls.

`fresh` models the branches that construct a brand-new in-memory
`ChatMessageHistory()` on every call (the "ollama" provider branch, and the
"gemini" branch when `MEMORY_DB_URL` is unset): the history read is always
empty and the messages appended after the call go to an object that is
never seen again.

`sql` models the `SQLChatMessageHistory` branch ("gemini" provider with
`MEMORY_DB_URL` set): reads and appends hit a persistent store keyed by
`session_id`. -/
inductive HistMode
  | fresh
  | sql
  deriving DecidableEq, Repr

/-- The history `RunnableWithMessageHistory` reads for a session before a
call: empty in `fresh` mode, the stored turns of that session in `sql`
mode. -/
def histFor : HistMode → Store → String → List Msg
  | HistMode.fresh, _, _ => []
  | HistMode.sql, st, sid => st sid

/-- Outcome of one `AIAgent.invoke(user_input, session_id)`: the reply text
returned to the caller, the session store after the call, and the message
list that was supplied to the backend. -/
structure InvokeResult where
  reply : String
  store : Store
  sent : List Msg

/-- One `AIAgent.invoke(user_input, session_id)` call, as executed by
`RunnableWithMessageHistory` over the chain `prompt | llm`:
`_get_session_history(session_id)` supplies the history, the prompt
template assembles `[system] ++ history ++ [user input]`, the backend
(`b`) produces the reply, and the input and output messages are appended
to the same history object — persistently in `sql` mode, onto a discarded
fresh object in `fresh` mode. -/
def invokeStep (m : HistMode) (b : List Msg → String) (st : Store)
    (input sid : String) : InvokeResult :=
  let history := histFor m st sid
  let msgs := promptMessages history input
  let reply := b msgs
  let st' : Store :=
    match m with
    | HistMode.fresh => st
    | HistMode.sql => fun s =>
        if s = sid then st sid ++ [⟨Role.user, input⟩, ⟨Role.assistant, reply⟩]
        else st s
  ⟨reply, st', msgs⟩

/-- The store every process starts from: no session has any turns. -/
def initStore : Store := fun _ => []

/-- Result of running a sequence of `invoke` calls: the final store and the
trace of `(session_id, messages sent to the backend)` per call, in order. -/
structure RunResult where
  store : Store
  trace : List (String × List Msg)

/-- Run a list of `(user_input, session_id)` `invoke` calls in order from a
given store, recording for each call the message list supplied to the
backend. -/
def runCalls (m : HistMode) (b : List Msg → String) :
    List (String × String) → Store → RunResult
  | [], st => ⟨st, []⟩
  | c :: rest, st =>
    let r := invokeStep m b st c.1 c.2
    let rr := runCalls m b rest r.store
    ⟨rr.store, (c.2, r.sent) :: rr.trace⟩

/-! ### Provider selection (`AIAgent._initialize_llm`, config.py) -/

/-- The error raised by `_initialize_llm`: the `ValueError` the source
raises when the hosted credential is missing — the spec's
`ConfigurationError`. -/
inductive InitError
  | configurationError (msg : String)
  deriving DecidableEq, Repr

/-- The backend configuration `_initialize_llm` leaves on the agent:
the environment flag, the selected model name, and the provider-specific
settings (hosted API key, or local endpoint URL). -/
structure LLMSetup where
  production_env : Bool
  current_model : String
  api_key : Option String
  ollama_host : Option String
  deriving DecidableEq, Repr

/-- `os.getenv("ENVIRONMENT", "development").lower() == "production"`:
whether the hosted (Gemini) provider is selected. -/
def production_env (env : Env) : Bool :=
  pyLower (getenv env "ENVIRONMENT" "development") == "production"

/-- `AIAgent._initialize_llm`, embedded as pure configuration resolution
(the source performs no backend call here; it only reads the environment
and constructs clients).  In production mode a missing or empty
`GOOGLE_API_KEY` raises; otherwise defaults are applied for the unset
model and endpoint variables via `os.getenv` defaults. -/
def init_llm (env : Env) : Except InitError LLMSetup :=
  if production_env env then
    match env "GOOGLE_API_KEY" with
    | none =>
        Except.error
          (InitError.configurationError
            "GEMINI_API_KEY not set for production environment.")
    | some k =>
        if k = "" then
          Except.error
            (InitError.configurationError
              "GEMINI_API_KEY not set for production environment.")
        else
          Except.ok
            ⟨true, getenv env "GEMINI_MODEL" "gemini-pro", some k, none⟩
  else
    Except.ok
      ⟨false, getenv env "OLLAMA_MODEL" "gemma3", none,
        some (getenv env "OLLAMA_BASE_URL" "http://192.168.1.100:11434")⟩

/-- Python truthiness of `os.getenv("GOOGLE_API_KEY")`: the credential is
absent when the variable is unset or set to the empty string (the source's
`if not api_key`). -/
def credentialMissing (env : Env) : Prop :=
  env "GOOGLE_API_KEY" = none ∨ env "GOOGLE_API_KEY" = some ""

/-! ### Session-history selection (`AIAgent._get_session_history`,
config.py) -/

/-- The `LLM_PROVIDER` value of the active config class:
`DevelopmentConfig` fixes "ollama", `ProductionConfig` fixes "gemini". -/
inductive Provider
  | ollama
  | gemini
  deriving DecidableEq, Repr

/-- What `_get_session_history` returns: a fresh in-memory
`ChatMessageHistory`, or a `SQLChatMessageHistory` bound to a connection
string and a session id. -/
inductive HistBackend
  | inMemory
  | sqlHist (connection : String) (session_id : String)
  deriving DecidableEq, Repr

/-- `AIAgent._get_session_history(session_id)`: the ollama provider always
gets an in-memory history; the gemini provider falls back to an in-memory
history (with a logged warning) when `MEMORY_DB_URL` is falsy (unset or
empty), and otherwise gets a SQL history keyed by the session id.  The
function is total: no branch raises. -/
def get_session_history (provider : Provider) (memory_db_url : Option String)
    (session_id : String) : HistBackend :=
  match provider with
  | Provider.ollama => HistBackend.inMemory
  | Provider.gemini =>
    match memory_db_url with
    | none => HistBackend.inMemory
    | some u =>
        if u = "" then HistBackend.inMemory
        else HistBackend.sqlHist u session_id

/-- The cross-call history behavior induced by `_get_session_history`: a
fresh `ChatMessageHistory` per call keeps nothing between calls, a SQL
history persists per session. -/
def sessionHistMode (provider : Provider) (memory_db_url : Option String)
    (session_id : String) : HistMode :=
  match get_session_history provider memory_db_url session_id with
  | HistBackend.inMemory => HistMode.fresh
  | HistBackend.sqlHist _ _ => HistMode.sql

/-! ### The text-generation facade (`AIAgent.generate_text`) -/

/-- A Python exception escaping a backend call or a field access. -/
inductive PyErr
  | exc (msg : String)
  deriving DecidableEq, Repr

/-- The Gemini response envelope: the `.text` attribute, when present. -/
structure GeminiResp where
  text : Option String
  deriving DecidableEq, Repr

/-- The `message` dict inside an ollama chat response: the `'content'`
key, when present. -/
structure OllamaMessage where
  content : Option String
  deriving DecidableEq, Repr

/-- The ollama chat response dict: the `'message'` key, when present. -/
structure OllamaResp where
  message : Option OllamaMessage
  deriving DecidableEq, Repr

/-- Reading `response.text` from a Gemini response: raises when the
response carries no text. -/
def geminiText (r : GeminiResp) : Except PyErr String :=
  match r.text with
  | some t => Except.ok t
  | none => Except.error (PyErr.exc "response has no text")

/-- Reading `response['message']['content']` from an ollama response:
raises `KeyError` when either key is missing. -/
def ollamaContent (r : OllamaResp) : Except PyErr String :=
  match r.message with
  | none => Except.error (PyErr.exc "KeyError: message")
  | some m =>
    match m.content with
    | none => Except.error (PyErr.exc "KeyError: content")
    | some c => Except.ok c

/-- The body of `generate_text`'s `try` block: in production call
`self.llm.generate_content(user_prompt)` and read `.text`; otherwise call
`self.llm.chat(model=..., messages=[{'role': 'user', 'content': ...}])`
and read `['message']['content']`.  The backend calls are the injected
functions `gemini` and `ollama`; any exception they or the field reads
raise surfaces as `Except.error`. -/
def generateAttempt (prod : Bool)
    (gemini : String → Except PyErr GeminiResp)
    (ollama : String → List Msg → Except PyErr OllamaResp)
    (model user_prompt : String) : Except PyErr String :=
  if prod then
    (gemini user_prompt).bind geminiText
  else
    (ollama model [⟨Role.user, user_prompt⟩]).bind ollamaContent

/-- The fixed fallback returned when anything in the `try` block raises. -/
def fallbackMessage : String := "Sorry, there was an error generating a response."

/-- `AIAgent.generate_text(user_prompt)`: the `try` block's result when it
succeeds, and the fixed fallback string when any exception is raised —
the exception is never propagated (the function is total). -/
def generate_text (prod : Bool)
    (gemini : String → Except PyErr GeminiResp)
    (ollama : String → List Msg → Except PyErr OllamaResp)
    (model user_prompt : String) : String :=
  match generateAttempt prod gemini ollama model user_prompt with
  | Except.ok t => t
  | Except.error _ => fallbackMessage

/-- One `generate_text` call seen as a step over the agent's session
store: the method reads none of the conversation state and mutates
nothing, so the store passes through unchanged and the reply depends only
on the prompt and the injected backends. -/
def generateStep (prod : Bool)
    (gemini : String → Except PyErr GeminiResp)
    (ollama : String → List Msg → Except PyErr OllamaResp)
    (model : String) (st : Store) (user_prompt : String) : String × Store :=
  (generate_text prod gemini ollama model user_prompt, st)

/-! ### Prompt builders (prompts.py) -/

/-- The `length_instructions` dict lookup with its `.get` default. -/
def length_instruction (length : String) : String :=
  if length = "short" then
    "Keep the summary concise, no more than 3-4 sentences."
  else if length = "medium" then
    "Provide a moderately detailed summary, about 1-2 paragraphs."
  else if length = "long" then
    "Provide a comprehensive summary, covering all key points in detail."
  else
    "Provide a summary of appropriate length."

/-- The `style_instructions` dict lookup with its `.get` default. -/
def style_instruction (style : String) : String :=
  if style = "executive_summary" then
    "Format as an executive summary for a business audience."
  else if style = "bullet_points" then
    "Format the summary as clear, concise bullet points."
  else if style = "narrative" then
    "Write the summary in a narrative, story-like style."
  else
    "Format the summary in a clear and readable way."

/-- `get_summary_prompt(document_text, length, style)`: the concatenation
the source builds, with the looked-up (or default) length and style
instruction texts and the document inserted verbatim. -/
def get_summary_prompt (document_text length style : String) : String :=
  "You are an expert summarizer. Your task is to summarize the following document.\n" ++
  length_instruction length ++ " " ++ style_instruction style ++ "\n" ++
  "Document:\n" ++ document_text ++ "\nSummary:"

/-- `get_qa_prompt(document_text, question)`: the grounded
question-answering prompt. -/
def get_qa_prompt (document_text question : String) : String :=
  "You are a helpful assistant. Answer the following question using only the information in the provided document. If the answer is not present in the document, reply with 'The answer is not available in the provided document.'\n" ++
  "Document:\n" ++ document_text ++ "\nQuestion: " ++ question ++ "\nAnswer:"

/-! ### URL fetching (`summarizer.fetch_text_from_url`) -/

/-- What `requests.get(url, timeout=15)` did: raised a
`RequestException`, or returned a response with a status code and a body.
All network-request exceptions from `requests` derive from
`RequestException`, which the source's `except` clause catches. -/
inductive ReqOutcome
  | raised (e : String)
  | response (status : Nat) (body : String)
  deriving DecidableEq, Repr

/-- `fetch_text_from_url(url)`, parameterized by the request outcome and
by `extract`, the BeautifulSoup content-tag extraction plus the
newline-collapsing regex (external library behavior the claims do not
constrain); the final Python `text.strip()` is the explicit `pyStrip`.  A
raised request exception or a non-200 status short-circuits to the empty
string before any parsing. -/
def fetch_text_from_url (extract : String → String) (o : ReqOutcome) : String :=
  match o with
  | ReqOutcome.raised _ => ""
  | ReqOutcome.response status body =>
      if status ≠ 200 then "" else pyStrip (extract body)

/-! ### Interactive loops (agent.py `__main__`, summarizer.py `__main__`) -/

/-- Trim and lowercase an input line, as `line.strip().lower()`. -/
def normalizeCmd (line : String) : String := pyLower (pyStrip line)

/-- The chat loop's exit test in agent.py:
`user_input.strip().lower() in {"exit", "quit"}`. -/
def agentLoopExits (line : String) : Bool :=
  normalizeCmd line == "exit" || normalizeCmd line == "quit"

/-- The per-document question loop's exit test in summarizer.py:
`user_question.strip().lower() in {"exit", "quit"}`. -/
def questionLoopExits (line : String) : Bool :=
  normalizeCmd line == "exit" || normalizeCmd line == "quit"

/-- The outer URL loop's exit test in summarizer.py: the line is stripped
on read and the loop breaks only when `url.lower() == 'quit'`. -/
def urlLoopExits (line : String) : Bool :=
  normalizeCmd line == "quit"

/-- What one loop iteration does with a line: stop, or answer with text to
print. -/
inductive LoopAction
  | halt
  | respond (text : String)
  deriving DecidableEq, Repr

/-- One iteration of the agent.py chat loop: break on `exit`/`quit`,
otherwise forward the line to `agent.invoke(user_input, session_id)` and
print the reply. -/
def agentLoopStep (m : HistMode) (b : List Msg → String) (st : Store)
    (line sid : String) : LoopAction × Store :=
  if agentLoopExits line then
    (LoopAction.halt, st)
  else
    let r := invokeStep m b st line sid
    (LoopAction.respond r.reply, r.store)

/-- One iteration of the summarizer.py question loop: break on
`exit`/`quit`, otherwise forward the question through `get_qa_prompt` to
`agent.generate_text` (abstracted as `gen`) and print the answer. -/
def questionLoopStep (gen : String → String) (doc line : String) : LoopAction :=
  if questionLoopExits line then LoopAction.halt
  else LoopAction.respond (gen (get_qa_prompt doc line))

/-- The exit condition the claim states for every loop of the program:
the line, after trimming and lowercasing, is "exit" or "quit". -/
def claimedExitCondition (line : String) : Bool :=
  pyLower (pyStrip line) == "exit" || pyLower (pyStrip line) == "quit"

/-! ### Helper lemmas for session isolation -/

theorem invokeStep_store_ne (m : HistMode) (b : List Msg → String) (st : Store)
    (input sid s : String) (h : s ≠ sid) :
    (invokeStep m b st input sid).store s = st s := by
  cases m <;> simp [invokeStep, h]

theorem invokeStep_congr (m : HistMode) (b : List Msg → String)
    {st st' : Store} (input sid : String) (h : st sid = st' sid) :
    (invokeStep m b st input sid).sent = (invokeStep m b st' input sid).sent ∧
    (invokeStep m b st input sid).reply = (invokeStep m b st' input sid).reply ∧
    (invokeStep m b st input sid).store sid = (invokeStep m b st' input sid).store sid := by
  cases m <;> simp [invokeStep, histFor, h]

theorem runCalls_filter_aux (m : HistMode) (b : List Msg → String) (s : String) :
    ∀ (calls : List (String × String)) (st st' : Store), st s = st' s →
      (runCalls m b calls st).store s =
        (runCalls m b (calls.filter fun c => c.2 == s) st').store s ∧
      (runCalls m b calls st).trace.filter (fun e => e.1 == s) =
        (runCalls m b (calls.filter fun c => c.2 == s) st').trace := by
  intro calls
  induction calls with
  | nil => intro st st' h; exact ⟨h, rfl⟩
  | cons c rest ih =>
    intro st st' h
    by_cases hcs : c.2 = s
    · have hfil : (c :: rest).filter (fun c => c.2 == s) =
          c :: rest.filter (fun c => c.2 == s) := by
        simp [List.filter_cons, hcs]
      rw [hfil]
      have hh : st c.2 = st' c.2 := by rw [hcs]; exact h
      obtain ⟨hsent, _, hstore⟩ := invokeStep_congr m b c.1 c.2 hh
      have hstores : (invokeStep m b st c.1 c.2).store s =
          (invokeStep m b st' c.1 c.2).store s := by
        rw [← hcs]; exact hstore
      have ihx := ih (invokeStep m b st c.1 c.2).store
        (invokeStep m b st' c.1 c.2).store hstores
      refine ⟨?_, ?_⟩
      · simpa [runCalls] using ihx.1
      · simp only [runCalls, List.filter_cons]
        have : (c.2 == s) = true := by simp [hcs]
        simp [this, hsent, ihx.2]
    · have hfil : (c :: rest).filter (fun c => c.2 == s) =
          rest.filter (fun c => c.2 == s) := by
        simp [List.filter_cons, hcs]
      rw [hfil]
      have hst1 : (invokeStep m b st c.1 c.2).store s = st s :=
        invokeStep_store_ne m b st c.1 c.2 s (fun hh => hcs hh.symm)
      have ihx := ih (invokeStep m b st c.1 c.2).store st' (by rw [hst1]; exact h)
      refine ⟨?_, ?_⟩
      · simpa [runCalls] using ihx.1
      · simp only [runCalls, List.filter_cons]
        have : (c.2 == s) = false := by simp [hcs]
        simp [this, ihx.2]

/-! ### Claim theorems -/

/-- Claim C1 (code bug): in the development/ollama configuration (and in
gemini mode without `MEMORY_DB_URL`) `_get_session_history` builds a fresh
empty `ChatMessageHistory` on every call, so after `converse("hi", "s1")`
the second call `converse("how are you", "s1")` sends the backend only the
system instruction and the new user turn — not the claimed
system + "hi" + first reply + "how are you".  Only the SQL-backed history
(gemini with `MEMORY_DB_URL`) produces the claimed four-message list,
shown here for contrast. -/
theorem invoke_dev_mode_drops_history :
    sessionHistMode Provider.ollama none "s1" = HistMode.fresh ∧
    (invokeStep HistMode.fresh (fun _ => "I am fine.")
        ((invokeStep HistMode.fresh (fun _ => "I am fine.") initStore "hi" "s1").store)
        "how are you" "s1").sent = [systemMsg, ⟨Role.user, "how are you"⟩] ∧
    (invokeStep HistMode.sql (fun _ => "I am fine.")
        ((invokeStep HistMode.sql (fun _ => "I am fine.") initStore "hi" "s1").store)
        "how are you" "s1").sent =
      [systemMsg, ⟨Role.user, "hi"⟩, ⟨Role.assistant, "I am fine."⟩,
        ⟨Role.user, "how are you"⟩] :=
  ⟨rfl, rfl, rfl⟩

/-- Claim C2 (confirmed): whenever the body of `generate_text`'s `try`
block raises — transport error from the backend call, or a missing
response field — `generate_text` returns exactly the fixed fallback
string; the exception never propagates (the function is total). -/
theorem generate_text_error_fallback (prod : Bool)
    (gemini : String → Except PyErr GeminiResp)
    (ollama : String → List Msg → Except PyErr OllamaResp)
    (model user_prompt : String) (e : PyErr)
    (h : generateAttempt prod gemini ollama model user_prompt = Except.error e) :
    generate_text prod gemini ollama model user_prompt =
      "Sorry, there was an error generating a response." := by
  simp [generate_text, h, fallbackMessage]

/-- Witness for C2: a hosted backend whose call raises a transport error
yields exactly the fallback string. -/
theorem generate_text_error_fallback_witness :
    generate_text true (fun _ => Except.error (PyErr.exc "transport error"))
      (fun _ _ => Except.error (PyErr.exc "transport error")) "gemini-pro" "hello" =
      "Sorry, there was an error generating a response." :=
  generate_text_error_fallback true _ _ "gemini-pro" "hello"
    (PyErr.exc "transport error") rfl

/-- Claim C3 (confirmed): in production (hosted) mode with the
`GOOGLE_API_KEY` credential absent (unset or empty), `_initialize_llm`
raises the configuration error — pure configuration resolution, no
backend call; and that configuration error is the only error the
resolution can produce, and only in exactly that situation. -/
theorem init_llm_hosted_requires_credential (env : Env) :
    (production_env env = true → credentialMissing env →
      init_llm env = Except.error (InitError.configurationError
        "GEMINI_API_KEY not set for production environment.")) ∧
    (∀ e, init_llm env = Except.error e →
      production_env env = true ∧ credentialMissing env ∧
        e = InitError.configurationError
          "GEMINI_API_KEY not set for production environment.") := by
  constructor
  · intro hp hc
    rcases hc with hc | hc <;> simp [init_llm, hp, hc]
  · intro e he
    cases hpe : production_env env with
    | false => simp [init_llm, hpe] at he
    | true =>
      rcases hk : env "GOOGLE_API_KEY" with _ | k
      · refine ⟨rfl, Or.inl hk, ?_⟩
        simp [init_llm, hpe, hk] at he
        exact he.symm
      · by_cases hke : k = ""
        · subst hke
          refine ⟨rfl, Or.inr hk, ?_⟩
          simp [init_llm, hpe, hk] at he
          exact he.symm
        · simp [init_llm, hpe, hk, hke] at he

/-- An environment selecting hosted mode with no credential set. -/
def envProdNoKey : Env := fun k => if k = "ENVIRONMENT" then some "production" else none

/-- Witness for C3: hosted mode with no credential raises the
configuration error. -/
theorem init_llm_hosted_requires_credential_witness :
    init_llm envProdNoKey = Except.error (InitError.configurationError
      "GEMINI_API_KEY not set for production environment.") :=
  (init_llm_hosted_requires_credential envProdNoKey).1 (by decide) (Or.inl rfl)

/-- Claim C4 (confirmed): the message lists supplied to the backend by
the calls of any one session are exactly those of a run containing only
that session's calls — turns of other sessions are never visible, in both
history modes (fresh in-memory and SQL keyed by session id). -/
theorem converse_session_isolation (m : HistMode) (b : List Msg → String)
    (calls : List (String × String)) (s : String) :
    (runCalls m b calls initStore).trace.filter (fun e => e.1 == s) =
      (runCalls m b (calls.filter fun c => c.2 == s) initStore).trace :=
  (runCalls_filter_aux m b s calls initStore initStore rfl).2

/-- Claim C5 (amended): in local (development) mode `_initialize_llm`
always succeeds with the local provider, taking `OLLAMA_MODEL` when set
and the non-empty default "gemma3" when unset; an override explicitly set
to the empty string yields an empty model name, which is why the original
unconditional non-emptiness fails. -/
theorem init_llm_local_defaults (env : Env) (h : production_env env = false) :
    init_llm env = Except.ok ⟨false, getenv env "OLLAMA_MODEL" "gemma3", none,
        some (getenv env "OLLAMA_BASE_URL" "http://192.168.1.100:11434")⟩ ∧
    (env "OLLAMA_MODEL" = none →
      getenv env "OLLAMA_MODEL" "gemma3" = "gemma3" ∧
        getenv env "OLLAMA_MODEL" "gemma3" ≠ "") := by
  constructor
  · simp [init_llm, h]
  · intro hm
    refine ⟨by simp [getenv, hm], by simp [getenv, hm]⟩

/-- An environment with no variables set at all: local mode, no
overrides. -/
def envEmpty : Env := fun _ => none

/-- Witness for C5: with no overrides at all, local-mode selection
succeeds with the default non-empty model name. -/
theorem init_llm_local_defaults_witness :
    init_llm envEmpty = Except.ok ⟨false, "gemma3", none,
        some "http://192.168.1.100:11434"⟩ ∧
    getenv envEmpty "OLLAMA_MODEL" "gemma3" = "gemma3" :=
  ⟨(init_llm_local_defaults envEmpty (by decide)).1,
   ((init_llm_local_defaults envEmpty (by decide)).2 rfl).1⟩

/-- An environment selecting local mode but overriding `OLLAMA_MODEL`
with the empty string. -/
def envEmptyModel : Env := fun k => if k = "OLLAMA_MODEL" then some "" else none

/-- Counterexample for C5 as stated: an environment that selects local
mode but sets `OLLAMA_MODEL=""` makes selection succeed with an empty
model name — `os.getenv` defaults apply only to unset variables, so
"model_id always non-empty" fails. -/
theorem init_llm_empty_model_counterexample :
    production_env envEmptyModel = false ∧
    init_llm envEmptyModel = Except.ok ⟨false, "", none,
        some "http://192.168.1.100:11434"⟩ ∧
    ¬ (∀ env : Env, production_env env = false →
        ∀ cfg, init_llm env = Except.ok cfg → cfg.current_model ≠ "") := by
  refine ⟨by decide, by rfl, ?_⟩
  intro hall
  exact hall envEmptyModel (by decide)
    ⟨false, "", none, some "http://192.168.1.100:11434"⟩ (by rfl) rfl

/-- Claim C6 (confirmed): `generate_text` keeps no state between calls —
the session store passes through a call unchanged — so two consecutive
calls with the same prompt against the same (deterministic, injected)
backends return identical text. -/
theorem generate_stateless_idempotent (prod : Bool)
    (gemini : String → Except PyErr GeminiResp)
    (ollama : String → List Msg → Except PyErr OllamaResp)
    (model : String) (st : Store) (p : String) :
    (generateStep prod gemini ollama model st p).2 = st ∧
    (generateStep prod gemini ollama model
        ((generateStep prod gemini ollama model st p).2) p).1 =
      (generateStep prod gemini ollama model st p).1 :=
  ⟨rfl, rfl⟩

/-- Claim C7 (amended): the agent chat loop and the per-document question
loop exit exactly when the trimmed, lowercased line is "exit" or "quit",
and otherwise forward the line (to `invoke`, resp. through the QA prompt
to `generate_text`) and surface the reply; the summarizer's outer URL
loop, however, exits only on "quit" — "exit" does not terminate it. -/
theorem repl_exit_conditions (line : String) (m : HistMode)
    (b : List Msg → String) (st : Store) (sid : String)
    (gen : String → String) (doc : String) :
    agentLoopExits line = claimedExitCondition line ∧
    questionLoopExits line = claimedExitCondition line ∧
    urlLoopExits line = (normalizeCmd line == "quit") ∧
    agentLoopStep m b st line sid =
      (if claimedExitCondition line then (LoopAction.halt, st)
       else (LoopAction.respond (invokeStep m b st line sid).reply,
             (invokeStep m b st line sid).store)) ∧
    questionLoopStep gen doc line =
      (if claimedExitCondition line then LoopAction.halt
       else LoopAction.respond (gen (get_qa_prompt doc line))) :=
  ⟨rfl, rfl, rfl, rfl, rfl⟩

/-- Counterexample for C7 as stated: the line "exit" satisfies the
claimed termination condition, but the summarizer's URL loop does not
terminate on it (it only breaks on "quit"). -/
theorem url_loop_exit_counterexample :
    urlLoopExits "exit" = false ∧ claimedExitCondition "exit" = true := by
  refine ⟨by decide, by decide⟩

/-- Claim C8 (confirmed): with the gemini provider and no
`MEMORY_DB_URL` configured (unset or empty — Python falsiness),
`_get_session_history` returns an in-memory chat history instead of
raising, so `converse` remains usable without a persistent store. -/
theorem get_session_history_gemini_fallback (url : Option String) (sid : String)
    (h : url = none ∨ url = some "") :
    get_session_history Provider.gemini url sid = HistBackend.inMemory := by
  rcases h with h | h <;> subst h <;> rfl

/-- Witness for C8: gemini mode with no database URL set falls back to
the in-memory history. -/
theorem get_session_history_gemini_fallback_witness :
    get_session_history Provider.gemini none "user_abc_dev_session" =
      HistBackend.inMemory :=
  get_session_history_gemini_fallback none "user_abc_dev_session" (Or.inl rfl)

/-- Claim C9 (confirmed): `get_summary_prompt` is total over arbitrary
length and style strings, always embeds the document text verbatim, and
substitutes the fixed default instruction sentence independently per
dimension: any length outside the recognized set gets the default length
instruction whatever the style is, and any style outside the recognized
set gets the default style instruction whatever the length is. -/
theorem get_summary_prompt_contains_doc (document_text length style : String) :
    (∃ pre post : String,
        get_summary_prompt document_text length style =
          pre ++ document_text ++ post) ∧
    (length ≠ "short" → length ≠ "medium" → length ≠ "long" →
      get_summary_prompt document_text length style =
        "You are an expert summarizer. Your task is to summarize the following document.\n" ++
        "Provide a summary of appropriate length." ++ " " ++
        style_instruction style ++ "\n" ++
        "Document:\n" ++ document_text ++ "\nSummary:") ∧
    (style ≠ "executive_summary" → style ≠ "bullet_points" → style ≠ "narrative" →
      get_summary_prompt document_text length style =
        "You are an expert summarizer. Your task is to summarize the following document.\n" ++
        length_instruction length ++ " " ++
        "Format the summary in a clear and readable way." ++ "\n" ++
        "Document:\n" ++ document_text ++ "\nSummary:") := by
  refine ⟨?_, ?_, ?_⟩
  · exact ⟨"You are an expert summarizer. Your task is to summarize the following document.\n" ++
      length_instruction length ++ " " ++ style_instruction style ++ "\n" ++ "Document:\n",
      "\nSummary:", rfl⟩
  · intro h1 h2 h3
    simp [get_summary_prompt, length_instruction, h1, h2, h3]
  · intro h4 h5 h6
    simp [get_summary_prompt, style_instruction, h4, h5, h6]

set_option maxRecDepth 8192 in
/-- Witness for C9, exercising the mixed cases: unrecognized length "x"
with the recognized style "narrative" substitutes only the default length
sentence; the recognized length "short" with unrecognized style "y"
substitutes only the default style sentence; the document appears
verbatim. -/
theorem get_summary_prompt_contains_doc_witness :
    (∃ pre post : String,
        get_summary_prompt "DOC" "x" "narrative" = pre ++ "DOC" ++ post) ∧
    get_summary_prompt "DOC" "x" "narrative" =
      "You are an expert summarizer. Your task is to summarize the following document.\n" ++
      "Provide a summary of appropriate length." ++ " " ++
      "Write the summary in a narrative, story-like style." ++ "\n" ++
      "Document:\n" ++ "DOC" ++ "\nSummary:" ∧
    get_summary_prompt "DOC" "short" "y" =
      "You are an expert summarizer. Your task is to summarize the following document.\n" ++
      "Keep the summary concise, no more than 3-4 sentences." ++ " " ++
      "Format the summary in a clear and readable way." ++ "\n" ++
      "Document:\n" ++ "DOC" ++ "\nSummary:" :=
  ⟨(get_summary_prompt_contains_doc "DOC" "x" "narrative").1,
   ((get_summary_prompt_contains_doc "DOC" "x" "narrative").2.1 (by decide)
      (by decide) (by decide)).trans (by decide),
   ((get_summary_prompt_contains_doc "DOC" "short" "y").2.2 (by decide)
      (by decide) (by decide)).trans (by decide)⟩

/-- Claim C10 (confirmed): `fetch_text_from_url` returns the empty string
on every raised network-request exception and on every non-200 response —
it never raises, being total — and a non-empty return can only come from
a status-200 response. -/
theorem fetch_text_error_empty (extract : String → String) (o : ReqOutcome) :
    (∀ e, o = ReqOutcome.raised e → fetch_text_from_url extract o = "") ∧
    (∀ status body, o = ReqOutcome.response status body → status ≠ 200 →
      fetch_text_from_url extract o = "") ∧
    (fetch_text_from_url extract o ≠ "" →
      ∃ body, o = ReqOutcome.response 200 body) := by
  refine ⟨?_, ?_, ?_⟩
  · intro e he; subst he; rfl
  · intro status body he hs; subst he; simp [fetch_text_from_url, hs]
  · intro hne
    cases o with
    | raised e => exact absurd rfl hne
    | response status body =>
      by_cases hs : status = 200
      · subst hs; exact ⟨body, rfl⟩
      · exact absurd (by simp [fetch_text_from_url, hs]) hne

/-- Witness for C10: a raised connection error and a 404 response both
yield the empty string. -/
theorem fetch_text_error_empty_witness :
    fetch_text_from_url id (ReqOutcome.raised "ConnectionError") = "" ∧
    fetch_text_from_url id (ReqOutcome.response 404 "<html></html>") = "" :=
  ⟨(fetch_text_error_empty id (ReqOutcome.raised "ConnectionError")).1
      "ConnectionError" rfl,
   (fetch_text_error_empty id (ReqOutcome.response 404 "<html></html>")).2.1
      404 "<html></html>" rfl (by decide)⟩

end Ai1
